import Mathlib

/-!
Shallow embedding of the Conway's Game of Life engine from `src/src/index.ts`
(`Life.Model`: the `state` accessor, the constructor, and the static `tick`
function) together with the spec-side formulations needed for the
refinement-style comparisons.

Grids are lists of rows of natural-number cells (the source's `Bit` is the
subset `{0, 1}` of these).  JavaScript's out-of-bounds array reads are
modelled with default values (`getD`); an `Option`-indexed variant of `tick`
is provided for the safety analysis of the initial reads.  `Math.random()`
draws are modelled by an explicit stream `rand : Nat → ℚ` of values, indexed
by cell position (each cell performs at most one fresh draw).
-/

namespace Life

/-- A grid: a list of rows, each a list of cells (source type `Bit[][]`,
with `Bit = 1 | 0` embedded into `Nat`). -/
abbrev Grid := List (List Nat)

/-- The engine's mutable fields: `_rowCount`, `_columnCount`, `_state`
(src/src/index.ts lines 146-148). -/
structure Model where
  rowCount : Nat
  columnCount : Nat
  state : Grid
  deriving Repr, DecidableEq

namespace Model

/-- Read `grid[i][j]` with JavaScript-style totalization (out-of-range
reads yield the default 0, never reached in the claims' preconditions). -/
def getCell (g : Grid) (i j : Nat) : Nat :=
  (g.getD i []).getD j 0

/-- `i >= 1 ? i - 1 : last` — the decrement-with-wraparound of
src/src/index.ts lines 254-255. -/
def decWrap (i last : Nat) : Nat :=
  if 1 ≤ i then i - 1 else last

/-- `i + 1 <= last ? i + 1 : 0` — the increment-with-wraparound of
src/src/index.ts lines 256-257. -/
def incWrap (i last : Nat) : Nat :=
  if i + 1 ≤ last then i + 1 else 0

/-- The eight-neighbor sum of src/src/index.ts lines 258-265: all eight
reads address the `input` grid at the wrapped coordinates. -/
def neighbors (input : Grid) (lastRow lastCol i j : Nat) : Nat :=
  let decX := decWrap i lastRow
  let decY := decWrap j lastCol
  let incX := incWrap i lastRow
  let incY := incWrap j lastCol
  getCell input decX decY +
  getCell input i decY +
  getCell input incX decY +
  getCell input decX j +
  getCell input incX j +
  getCell input decX incY +
  getCell input i incY +
  getCell input incX incY

/-- The source's rule chain (src/src/index.ts lines 271-274), with
JavaScript operator precedence in the second branch:
`alive && neighbors === 2 || neighbors === 3` parses as
`(alive && neighbors === 2) || neighbors === 3`.  `cell` starts at 0 and
is only assigned by a branch, so the fall-through default is 0. -/
def ruleCell (alive n : Nat) : Nat :=
  if alive ≠ 0 ∧ n < 2 then 0
  else if (alive ≠ 0 ∧ n = 2) ∨ n = 3 then 1
  else if alive ≠ 0 ∧ n > 3 then 0
  else if alive = 0 ∧ n = 3 then 1
  else 0

/-- The fluctuation step of src/src/index.ts lines 277-279:
`if (fluctuation && Math.random() < fluctuation) { cell = 1 - cell; }`.
`fluctuation` is truthy exactly when it is nonzero; `r` stands for the
fresh uniform draw. -/
def flipDraw (fluctuation r : ℚ) (cell : Nat) : Nat :=
  if fluctuation ≠ 0 ∧ r < fluctuation then 1 - cell else cell

/-- One generation step, `Life.Model.tick` (src/src/index.ts lines 242-285).
`rand` supplies the uniform draws; the draw for cell `(i, j)` is
`rand (i * columns + j)` (one fresh value per cell, consulted only when
`fluctuation` is nonzero). -/
def tick (input : Grid) (fluctuation : ℚ) (rand : Nat → ℚ) : Grid :=
  let rows := input.length
  let columns := (input.getD 0 []).length
  let lastRow := rows - 1
  let lastCol := columns - 1
  (List.range rows).map fun i =>
    (List.range columns).map fun j =>
      let alive := getCell input i j
      let cell := ruleCell alive (neighbors input lastRow lastCol i j)
      flipDraw fluctuation (rand (i * columns + j)) cell

/-- `Option`-indexed variant of `tick`: the initial read `input[0].length`
(src/src/index.ts line 244) is performed through `head?`, so a zero-row
grid takes the `none` branch instead of dereferencing a missing row. -/
def tickChecked (input : Grid) (fluctuation : ℚ) (rand : Nat → ℚ) :
    Option Grid :=
  match input.head? with
  | none => none
  | some row0 =>
    let rows := input.length
    let columns := row0.length
    let lastRow := rows - 1
    let lastCol := columns - 1
    some ((List.range rows).map fun i =>
      (List.range columns).map fun j =>
        let alive := getCell input i j
        let cell := ruleCell alive (neighbors input lastRow lastCol i j)
        flipDraw fluctuation (rand (i * columns + j)) cell)

/-- The `state` setter (src/src/index.ts lines 84-90): unconditionally
records the supplied grid and recomputes both counts from it
(`_columnCount = state[0].length; _rowCount = state.length`).  The
source's `this.state !== state` reference-equality guard only skips the
assignments when the very same array object is supplied, in which case all
three fields would receive the values they already hold, so the
unconditional update is observationally faithful. -/
def setState (m : Model) (g : Grid) : Model :=
  { m with
    columnCount := (g.getD 0 []).length
    rowCount := g.length
    state := g }

/-- The constructor with an explicit initial grid
(src/src/index.ts lines 52-57): `this.state = options.initial` runs the
`state` setter on a model whose fields are not yet initialized. -/
def mkModel (initial : Grid) : Model :=
  setState ⟨0, 0, []⟩ initial

/-- Modelled from the spec (§4.1 step 3): the canonical B3/S23 partition,
"alive with n<2 → dead, alive with n ∈ {2,3} → alive, alive with n>3 →
dead, dead with n==3 → alive, dead otherwise → dead".  Used only to compare
against the source-derived `ruleCell`. -/
def canonRule (alive n : Nat) : Nat :=
  if alive ≠ 0 ∧ n < 2 then 0
  else if alive ≠ 0 ∧ (n = 2 ∨ n = 3) then 1
  else if alive ≠ 0 ∧ n > 3 then 0
  else if alive = 0 ∧ n = 3 then 1
  else 0

/-- Modelled from the spec (§4.1 step 1 wording): "`r-1` wraps to
`rowCount-1` when `r == 0`", otherwise `r-1`. -/
def specDec (r count : Nat) : Nat :=
  if r = 0 then count - 1 else r - 1

/-- Modelled from the spec (§4.1 step 1 wording): "`r+1` wraps to `0` when
`r == rowCount-1`", otherwise `r+1`. -/
def specInc (r count : Nat) : Nat :=
  if r = count - 1 then 0 else r + 1

/-- Modelled from the spec: the eight-neighbor sum at the toroidally
wrapped coordinates described in §4.1 step 1, all reads on the input
grid. -/
def specNeighbors (input : Grid) (rows cols i j : Nat) : Nat :=
  getCell input (specDec i rows) (specDec j cols) +
  getCell input i (specDec j cols) +
  getCell input (specInc i rows) (specDec j cols) +
  getCell input (specDec i rows) j +
  getCell input (specInc i rows) j +
  getCell input (specDec i rows) (specInc j cols) +
  getCell input i (specInc j cols) +
  getCell input (specInc i rows) (specInc j cols)

/-- Repeated deterministic advance: `iterTick rs k g` applies `tick` with
`fluctuation = 0` for `k` generations, the step `t` using random source
`rs t` (never consulted when the fluctuation is zero). -/
def iterTick (rs : Nat → Nat → ℚ) : Nat → Grid → Grid
  | 0, g => g
  | k + 1, g => tick (iterTick rs k g) 0 (rs k)

/-! ### Helper lemmas -/

/-- With `fluctuation = 0` the guard `fluctuation && ...` is falsy and the
cell is returned unchanged; the draw is irrelevant. -/
theorem flipDraw_zero (r : ℚ) (c : Nat) : flipDraw 0 r c = c := by
  simp [flipDraw]

/-- The rule chain only ever assigns 0 or 1. -/
theorem ruleCell_bit (a n : Nat) : ruleCell a n = 0 ∨ ruleCell a n = 1 := by
  unfold ruleCell
  repeat' split
  all_goals simp

/-- The fluctuation flip maps `{0, 1}` to `{0, 1}`. -/
theorem flipDraw_bit (f r : ℚ) (c : Nat) (hc : c = 0 ∨ c = 1) :
    flipDraw f r c = 0 ∨ flipDraw f r c = 1 := by
  unfold flipDraw
  rcases hc with rfl | rfl <;> split <;> simp

/-- `tick` with `fluctuation = 0` does not depend on the random source. -/
theorem tick_zero_ext (g : Grid) (r₁ r₂ : Nat → ℚ) :
    tick g 0 r₁ = tick g 0 r₂ := by
  simp [tick, flipDraw]

/-- The source's decrement-with-wrap agrees with the spec's wording
(`r - 1`, wrapping to `count - 1` when `r == 0`). -/
theorem decWrap_eq_specDec (i count : Nat) :
    decWrap i (count - 1) = specDec i count := by
  unfold decWrap specDec
  split <;> split <;> omega

/-- The source's increment-with-wrap agrees with the spec's wording
(`r + 1`, wrapping to `0` when `r == count - 1`), for in-range `i`. -/
theorem incWrap_eq_specInc (i count : Nat) (h : i < count) :
    incWrap i (count - 1) = specInc i count := by
  unfold incWrap specInc
  split <;> split <;> omega

/-- The code's neighbor sum equals the spec's toroidal neighbor sum for
in-range coordinates. -/
theorem neighbors_eq_specNeighbors (input : Grid) (rows cols i j : Nat)
    (hi : i < rows) (hj : j < cols) :
    neighbors input (rows - 1) (cols - 1) i j =
      specNeighbors input rows cols i j := by
  simp only [neighbors, specNeighbors, decWrap_eq_specDec,
    incWrap_eq_specInc i rows hi, incWrap_eq_specInc j cols hj]

/-- Cell `(i, j)` of the `tick` output, for in-range coordinates: the rule
applied to the code's neighbor sum, then the fluctuation step on the fresh
draw for that cell. -/
theorem getCell_tick (input : Grid) (f : ℚ) (rand : Nat → ℚ) (i j : Nat)
    (hi : i < input.length) (hj : j < (input.getD 0 []).length) :
    getCell (tick input f rand) i j =
      flipDraw f (rand (i * (input.getD 0 []).length + j))
        (ruleCell (getCell input i j)
          (neighbors input (input.length - 1)
            ((input.getD 0 []).length - 1) i j)) := by
  have hlen : i < (tick input f rand).length := by simp [tick, hi]
  have houter : (tick input f rand).getD i [] =
      (List.range ((input.getD 0 []).length)).map fun j =>
        flipDraw f (rand (i * (input.getD 0 []).length + j))
          (ruleCell (getCell input i j)
            (neighbors input (input.length - 1)
              ((input.getD 0 []).length - 1) i j)) := by
    rw [List.getD_eq_getElem _ _ hlen]
    simp [tick, getCell]
  unfold getCell
  rw [houter, List.getD_eq_getElem _ _ (by simpa using hj),
    List.getElem_map, List.getElem_range]
  rfl

/-- The wrapped decrement of an in-range index is in range. -/
theorem decWrap_lt {i m : Nat} (h : i < m) : decWrap i (m - 1) < m := by
  unfold decWrap
  split <;> omega

/-- The wrapped increment of an in-range index is in range. -/
theorem incWrap_lt {i m : Nat} (h : i < m) : incWrap i (m - 1) < m := by
  unfold incWrap
  split <;> omega

/-- Reading a uniform grid at in-range coordinates yields the
constant. -/
theorem getCell_replicate {m n x y : Nat} (b : Nat) (hx : x < m)
    (hy : y < n) :
    getCell (List.replicate m (List.replicate n b)) x y = b := by
  have h1 : (List.replicate m (List.replicate n b)).getD x [] =
      List.replicate n b := by
    rw [List.getD_eq_getElem _ _ (by simpa using hx),
      List.getElem_replicate]
  unfold getCell
  rw [h1, List.getD_eq_getElem _ _ (by simpa using hy),
    List.getElem_replicate]

/-- On a uniform grid every cell's neighbor sum is eight times the
constant. -/
theorem neighbors_replicate {m n i j : Nat} (b : Nat) (hi : i < m)
    (hj : j < n) :
    neighbors (List.replicate m (List.replicate n b)) (m - 1) (n - 1)
      i j = 8 * b := by
  simp only [neighbors]
  rw [getCell_replicate b (decWrap_lt hi) (decWrap_lt hj),
    getCell_replicate b hi (decWrap_lt hj),
    getCell_replicate b (incWrap_lt hi) (decWrap_lt hj),
    getCell_replicate b (decWrap_lt hi) hj,
    getCell_replicate b (incWrap_lt hi) hj,
    getCell_replicate b (decWrap_lt hi) (incWrap_lt hj),
    getCell_replicate b hi (incWrap_lt hj),
    getCell_replicate b (incWrap_lt hi) (incWrap_lt hj)]
  omega

/-- `tick` with zero fluctuation on a uniform grid yields the uniform grid
of the rule's value at eight equal neighbors. -/
theorem tick_replicate {m n : Nat} (b : Nat) (rand : Nat → ℚ)
    (hm : 1 ≤ m) (_hn : 1 ≤ n) :
    tick (List.replicate m (List.replicate n b)) 0 rand =
      List.replicate m (List.replicate n (ruleCell b (8 * b))) := by
  have h0 : (List.replicate m (List.replicate n b)).getD 0 [] =
      List.replicate n b := by
    rw [List.getD_eq_getElem _ _ (by simpa using hm),
      List.getElem_replicate]
  simp only [tick, h0, List.length_replicate]
  rw [List.eq_replicate_iff]
  refine ⟨by simp, ?_⟩
  intro row hrow
  simp only [List.mem_map, List.mem_range] at hrow
  obtain ⟨i, hi, rfl⟩ := hrow
  rw [List.eq_replicate_iff]
  refine ⟨by simp, ?_⟩
  intro c hc
  simp only [List.mem_map, List.mem_range] at hc
  obtain ⟨j, hj, rfl⟩ := hc
  rw [flipDraw_zero, getCell_replicate b hi hj,
    neighbors_replicate b hi hj]

end Model

end Life

open Life Life.Model

/-! ### Claims -/

/-- C1: for every cell state `alive ∈ {0,1}` and every neighbor count
`n ∈ [0,8]`, the source's chain of conditionals — with JavaScript
precedence `(alive && n == 2) || n == 3` in the second branch — computes
the same output bit as the canonical B3/S23 partition. -/
theorem rule_chain_eq_canonical :
    ∀ alive : Nat, alive < 2 → ∀ n : Nat, n < 9 →
      ruleCell alive n = canonRule alive n := by
  decide

/-- Witness for C1 at `alive = 1`, `n = 3`. -/
theorem rule_chain_eq_canonical_witness :
    (1 : Nat) < 2 ∧ (3 : Nat) < 9 ∧ ruleCell 1 3 = canonRule 1 3 :=
  ⟨by decide, by decide, rule_chain_eq_canonical 1 (by decide) 3 (by decide)⟩

/-- C2 counterexample: constructing a model from the unequal-length rows
`[[1,0],[1]]` does not fail with any error — the source performs no
validation — and the grid is stored as the current state, with the column
count taken from the first row. -/
theorem mkModel_unequal_rows_succeeds :
    (mkModel [[1, 0], [1]]).state = [[1, 0], [1]] ∧
    (mkModel [[1, 0], [1]]).rowCount = 2 ∧
    (mkModel [[1, 0], [1]]).columnCount = 2 := by
  decide

/-- C2 (amended): construction never validates the grid — for every
initial grid, including rows of unequal length, construction succeeds and
stores the grid as the current state, with `rowCount` the number of rows
and `columnCount` the length of the first row; in particular construction
with consistent rows succeeds and stores the initial grid. -/
theorem mkModel_stores_grid (initial : Grid) :
    (mkModel initial).state = initial ∧
    (mkModel initial).rowCount = initial.length ∧
    (mkModel initial).columnCount = (initial.getD 0 []).length := by
  exact ⟨rfl, rfl, rfl⟩

/-- C3 counterexample: on a model holding a 2×2 grid, setting the state to
the 1×3 grid `[[1,1,1]]` does not fail with `InvalidDimensions`: it
silently replaces the grid and updates the row/column counts to 1 and 3. -/
theorem setState_dim_mismatch_succeeds :
    (setState (mkModel [[0, 0], [0, 0]]) [[1, 1, 1]]).state = [[1, 1, 1]] ∧
    (setState (mkModel [[0, 0], [0, 0]]) [[1, 1, 1]]).rowCount = 1 ∧
    (setState (mkModel [[0, 0], [0, 0]]) [[1, 1, 1]]).columnCount = 3 := by
  decide

/-- C3 (amended): setting the state always succeeds and replaces the
current grid, recomputing the counts from the supplied grid; when the
supplied grid has the same dimensions as the current one, the row/column
counts are therefore unaltered, and when the dimensions differ the counts
silently become those of the new grid (no `InvalidDimensions` error
exists). -/
theorem setState_replaces_grid (m : Model) (g : Grid) :
    (setState m g).state = g ∧
    (setState m g).rowCount = g.length ∧
    (setState m g).columnCount = (g.getD 0 []).length ∧
    (g.length = m.rowCount → (g.getD 0 []).length = m.columnCount →
      (setState m g).rowCount = m.rowCount ∧
      (setState m g).columnCount = m.columnCount) := by
  exact ⟨rfl, rfl, rfl, fun h₁ h₂ => ⟨h₁, h₂⟩⟩

/-- C4: for every non-empty rectangular grid and in-range cell `(i, j)`,
the `tick` output cell is the rule applied to the neighbor count computed
as the sum of the eight cells of the *input* grid at the toroidally
wrapped coordinates of the spec (`r-1` wrapping to `rowCount-1` when
`r == 0`, `r+1` wrapping to `0` when `r == rowCount-1`, symmetrically for
columns), followed by the fluctuation step. -/
theorem tick_toroidal_neighbors (input : Grid) (f : ℚ) (rand : Nat → ℚ)
    (i j : Nat) (hi : i < input.length)
    (hj : j < (input.getD 0 []).length) :
    getCell (tick input f rand) i j =
      flipDraw f (rand (i * (input.getD 0 []).length + j))
        (ruleCell (getCell input i j)
          (specNeighbors input input.length ((input.getD 0 []).length)
            i j)) := by
  rw [getCell_tick input f rand i j hi hj,
    neighbors_eq_specNeighbors input input.length
      ((input.getD 0 []).length) i j hi hj]

/-- Witness for C4 on the 2×2 grid `[[1,0],[0,1]]` at cell `(1, 0)`. -/
theorem tick_toroidal_neighbors_witness :
    (1 < ([[1, 0], [0, 1]] : Grid).length ∧
      0 < (([[1, 0], [0, 1]] : Grid).getD 0 []).length) ∧
    getCell (tick [[1, 0], [0, 1]] 0 fun _ => 0) 1 0 =
      flipDraw 0 ((fun _ => (0 : ℚ)) (1 * 2 + 0))
        (ruleCell (getCell [[1, 0], [0, 1]] 1 0)
          (specNeighbors [[1, 0], [0, 1]] 2 2 1 0)) :=
  ⟨⟨by decide, by decide⟩,
    tick_toroidal_neighbors [[1, 0], [0, 1]] 0 (fun _ => 0) 1 0
      (by decide) (by decide)⟩

/-- C5: `tick` preserves dimensions — for every non-empty rectangular
input grid and any fluctuation value and random source, the output has as
many rows as the input and every output row has the input's column
count. -/
theorem tick_preserves_dimensions (input : Grid) (f : ℚ) (rand : Nat → ℚ)
    (_hne : 1 ≤ input.length)
    (_hrect : ∀ row ∈ input, row.length = (input.getD 0 []).length) :
    (tick input f rand).length = input.length ∧
    ∀ row ∈ tick input f rand,
      row.length = (input.getD 0 []).length := by
  constructor
  · simp [tick]
  · intro row hrow
    simp only [tick, List.mem_map, List.mem_range] at hrow
    obtain ⟨i, -, rfl⟩ := hrow
    simp

/-- Witness for C5 at the 1×2 grid `[[1, 0]]`. -/
theorem tick_preserves_dimensions_witness :
    (1 ≤ ([[1, 0]] : Grid).length ∧
      ∀ row ∈ ([[1, 0]] : Grid),
        row.length = (([[1, 0]] : Grid).getD 0 []).length) ∧
    (tick [[1, 0]] 0 fun _ => 0).length = ([[1, 0]] : Grid).length ∧
    ∀ row ∈ tick [[1, 0]] 0 fun _ => 0,
      row.length = (([[1, 0]] : Grid).getD 0 []).length :=
  ⟨⟨by decide, by decide⟩,
    tick_preserves_dimensions [[1, 0]] 0 (fun _ => 0) (by decide)
      (by decide)⟩

/-- C6: with zero fluctuation, every all-dead grid of dimensions at least
3×3 is a fixed point of `tick`, and every all-alive grid of those
dimensions becomes all-dead after one tick (each cell has 8 alive
neighbors, which exceeds 3). -/
theorem tick_uniform_grids (m n : Nat) (rand : Nat → ℚ) (hm : 3 ≤ m)
    (hn : 3 ≤ n) :
    tick (List.replicate m (List.replicate n 0)) 0 rand =
      List.replicate m (List.replicate n 0) ∧
    tick (List.replicate m (List.replicate n 1)) 0 rand =
      List.replicate m (List.replicate n 0) := by
  have h0 : ruleCell 0 (8 * 0) = 0 := by decide
  have h1 : ruleCell 1 (8 * 1) = 0 := by decide
  constructor
  · rw [tick_replicate 0 rand (by omega) (by omega), h0]
  · rw [tick_replicate 1 rand (by omega) (by omega), h1]

/-- Witness for C6 at the 3×3 dimensions. -/
theorem tick_uniform_grids_witness :
    ((3 : Nat) ≤ 3 ∧ (3 : Nat) ≤ 3) ∧
    tick (List.replicate 3 (List.replicate 3 0)) 0 (fun _ => 0) =
      List.replicate 3 (List.replicate 3 0) ∧
    tick (List.replicate 3 (List.replicate 3 1)) 0 (fun _ => 0) =
      List.replicate 3 (List.replicate 3 0) :=
  ⟨⟨by decide, by decide⟩,
    tick_uniform_grids 3 3 (fun _ => 0) (by decide) (by decide)⟩

/-- C7: with zero fluctuation, `tick` is a deterministic function of the
input grid alone — it never consults the random source — so advancing the
same initial grid under any two random sources yields identical grids at
every generation count. -/
theorem tick_deterministic :
    ∀ (g : Grid) (r₁ r₂ : Nat → ℚ), tick g 0 r₁ = tick g 0 r₂ ∧
    ∀ (rs₁ rs₂ : Nat → Nat → ℚ) (k : Nat),
      iterTick rs₁ k g = iterTick rs₂ k g := by
  intro g r₁ r₂
  refine ⟨tick_zero_ext g r₁ r₂, ?_⟩
  intro rs₁ rs₂ k
  induction k with
  | zero => rfl
  | succ k ih =>
    show tick (iterTick rs₁ k g) 0 (rs₁ k) =
      tick (iterTick rs₂ k g) 0 (rs₂ k)
    rw [ih]
    exact tick_zero_ext _ _ _

/-- C8: with fluctuation 1 and every draw of the random source in `[0,1)`,
every cell of the `tick` output is the flip of the value the deterministic
(zero-fluctuation) rule produces for that cell, the flip being applied
after rule evaluation, independently per cell. -/
theorem tick_fluctuation_one (input : Grid) (rand : Nat → ℚ)
    (hr : ∀ k, 0 ≤ rand k ∧ rand k < 1) :
    tick input 1 rand =
      (tick input 0 rand).map (List.map fun c => 1 - c) := by
  simp only [tick, List.map_map]
  refine List.map_congr_left ?_
  intro i _
  simp only [Function.comp, List.map_map]
  refine List.map_congr_left ?_
  intro j _
  simp only [Function.comp, flipDraw]
  rw [if_pos ⟨one_ne_zero, (hr _).2⟩, if_neg (by simp)]

/-- Witness for C8 at the 1×1 grid `[[1]]` and the constantly-zero
source. -/
theorem tick_fluctuation_one_witness :
    tick [[1]] 1 (fun _ => 0) =
      (tick [[1]] 0 fun _ => 0).map (List.map fun c => 1 - c) :=
  tick_fluctuation_one [[1]] (fun _ => 0)
    (fun _ => ⟨le_refl 0, by norm_num⟩)

/-- C9 (implicit): for every input grid, fluctuation value and random
source, every cell of the `tick` output is 0 or 1 — the rule branches
only assign 0 or 1 and the fluctuation flip `1 - cell` maps `{0,1}` to
`{0,1}` — so the `Bit`-valued grid invariant is preserved by every
advance. -/
theorem tick_cells_bits (input : Grid) (f : ℚ) (rand : Nat → ℚ) :
    ∀ row ∈ tick input f rand, ∀ c ∈ row, c = 0 ∨ c = 1 := by
  intro row hrow c hc
  simp only [tick, List.mem_map, List.mem_range] at hrow
  obtain ⟨i, -, rfl⟩ := hrow
  simp only [List.mem_map, List.mem_range] at hc
  obtain ⟨j, -, rfl⟩ := hc
  exact flipDraw_bit _ _ _ (ruleCell_bit _ _)

/-- Witness for C9 on the output of `tick` at the 1×1 grid `[[1]]`. -/
theorem tick_cells_bits_witness : (0 : Nat) = 0 ∨ (0 : Nat) = 1 :=
  tick_cells_bits [[1]] 0 (fun _ => 0) [0] (by decide) 0 (by decide)

/-- C10 (implicit): `tick`'s first reads are `input.length` and
`input[0].length`; under the precondition of at least one row and one
column these reads succeed and the `Option`-indexed embedding's `none`
branch is unreachable — it agrees with the total `tick` — while on a
zero-row grid the read of `input[0]` has no value and the checked variant
returns `none`. -/
theorem tickChecked_safe (input : Grid) (f : ℚ) (rand : Nat → ℚ) :
    (1 ≤ input.length → 1 ≤ (input.getD 0 []).length →
      tickChecked input f rand = some (tick input f rand)) ∧
    (input.length = 0 → tickChecked input f rand = none) := by
  constructor
  · intro h₁ _h₂
    match input, h₁ with
    | r :: t, _ => rfl
  · intro h₀
    rw [List.length_eq_zero] at h₀
    subst h₀
    rfl

/-- Witness for C10 at the 2×2 grid `[[1,1],[0,0]]` and the empty grid. -/
theorem tickChecked_safe_witness :
    ((1 ≤ ([[1, 1], [0, 0]] : Grid).length ∧
        1 ≤ (([[1, 1], [0, 0]] : Grid).getD 0 []).length) ∧
      tickChecked [[1, 1], [0, 0]] 0 (fun _ => 0) =
        some (tick [[1, 1], [0, 0]] 0 fun _ => 0)) ∧
    tickChecked ([] : Grid) 0 (fun _ => 0) = none :=
  ⟨⟨⟨by decide, by decide⟩,
      (tickChecked_safe [[1, 1], [0, 0]] 0 fun _ => 0).1 (by decide)
        (by decide)⟩,
    (tickChecked_safe ([] : Grid) 0 fun _ => 0).2 (by decide)⟩

/-- Witness for C3 (amended) at a model with a 2×2 grid and a fresh 2×2
grid: the same-dimension replacement keeps both counts. -/
theorem setState_replaces_grid_witness :
    (setState (mkModel [[0, 1], [1, 0]]) [[1, 1], [0, 0]]).rowCount =
      (mkModel [[0, 1], [1, 0]]).rowCount ∧
    (setState (mkModel [[0, 1], [1, 0]]) [[1, 1], [0, 0]]).columnCount =
      (mkModel [[0, 1], [1, 0]]).columnCount :=
  (setState_replaces_grid (mkModel [[0, 1], [1, 0]]) [[1, 1], [0, 0]]).2.2.2
    (by decide) (by decide)
